import Mathlib

/-!
Verification of the drowsiness-detection core and telemetry generator of the
simbadashboard repository, against its natural-language specification.

The embedding below translates the relevant JavaScript/TypeScript sources into
Lean definitions:

* `Simba.HealthState`, `Simba.updateEyeState`, `Simba.stopBeep`,
  `Simba.toggleCamera` embed the wall-clock drowsiness state machine of the
  zustand health store in `src/unnamed/part_004` (fields `eyesClosedDuration`,
  `alertBeeping`, `lastEyeState`, `lastEyeStateTime`, `eyesClosedStartTime`;
  the untyped `beepInterval` side-channel handle is modelled by the boolean
  `beepOn`, and the `healthData.faceDetection` record by `fdFaceDetected`,
  `fdEyesOpen`).  `Date.now()` timestamps are integers (milliseconds); the
  JavaScript float `eyesClosedDuration` (seconds) is an exact rational.
* `Simba.HealthState3` / `Simba.updateEyeState3` embed the older frame-based
  store variant in `src/unnamed/part_003` (duration `+= 0.1` per call).
* `Simba.HealthState5` / `Simba.updateEyeState5` embed the two-argument
  frame-based store variant in `src/unnamed/part_005`, the store shape used by
  `src/client/src/pages/HealthMonitor.tsx`.
* `Simba.calculateEAR`, `Simba.smootherStep`, `Simba.detectEyesValid` embed the
  eye-aspect-ratio pipeline of `src/unnamed/part_017`; `Simba.hmCalculateEAR`
  embeds the guard-free `calculateEAR` of
  `src/client/src/pages/HealthMonitor.tsx` together with the JavaScript
  division-by-zero semantics (`Simba.JsNum`).
* `Simba.SystemState`, `Simba.handleControl`, `Simba.generateSensorData` embed
  the mock telemetry server in `src/server/index.js`, with each `Math.random()`
  draw passed in explicitly as a rational in `[0, 1]`.
-/

namespace Simba

/-- The `lastEyeState` field of the part_004 store: `null`, `'open'` or
`'closed'`. -/
inductive EyeSt where
  | noneSt : EyeSt
  | openSt : EyeSt
  | closedSt : EyeSt
deriving DecidableEq, Repr

/-- The drowsiness-relevant state of the part_004 health store.  Timestamps are
`Date.now()` milliseconds (`ℤ`); `eyesClosedDuration` is in seconds (`ℚ`).
`beepOn` models the `beepInterval` handle being set (the alarm sound driver
running); `fdFaceDetected` / `fdEyesOpen` model
`healthData.faceDetection.faceDetected` / `.eyesOpen`. -/
structure HealthState where
  cameraActive : Bool
  eyesClosedDuration : ℚ
  alertBeeping : Bool
  lastEyeState : EyeSt
  lastEyeStateTime : ℤ
  eyesClosedStartTime : Option ℤ
  beepOn : Bool
  fdFaceDetected : Bool
  fdEyesOpen : Bool
deriving DecidableEq, Repr

/-- The initial store state of part_004: timers cleared, alarm off, and the
mock `healthData` built with `faceDetection: { faceDetected: false,
eyesOpen: true, cameraActive: false }`. -/
def initialHealthState : HealthState :=
  { cameraActive := false
    eyesClosedDuration := 0
    alertBeeping := false
    lastEyeState := EyeSt.noneSt
    lastEyeStateTime := 0
    eyesClosedStartTime := none
    beepOn := false
    fdFaceDetected := false
    fdEyesOpen := true }

/-- `updateEyeState(eyesOpen, eyesVisible, faceDetected)` of part_004
(lines 280-420), called with the current wall-clock time `now`.

* Safe branch (`eyesVisible && eyesOpen`): debounced reset.  If
  `lastEyeState !== 'open'` the debounce timer starts (`lastEyeStateTime :=
  now`); otherwise the timer state is cleared only once `now -
  (lastEyeStateTime || now) >= 500`.  (`lastEyeStateTime || Date.now()`
  is the JavaScript falsy-zero read, modelled by the `= 0` test.)
* Unsafe branches (eyes visible but closed, or eyes not visible): the start
  timestamp is kept (or set to `now` when `null`), the duration is recomputed
  as `(now - startTime) / 1000`, and the alarm triggers when
  `newDuration >= 5 && !alertBeeping`, starting the beep driver. -/
def updateEyeState (s : HealthState) (eyesOpen eyesVisible faceDetected : Bool)
    (now : ℤ) : HealthState :=
  if eyesVisible && eyesOpen then
    let lt : ℤ := if s.lastEyeStateTime = 0 then now else s.lastEyeStateTime
    let s1 : HealthState :=
      if s.lastEyeState ≠ EyeSt.openSt then
        { s with lastEyeState := EyeSt.openSt, lastEyeStateTime := now }
      else if 500 ≤ now - lt then
        { s with eyesClosedDuration := 0, eyesClosedStartTime := none }
      else s
    { s1 with fdFaceDetected := true, fdEyesOpen := true }
  else
    let startTime : ℤ := s.eyesClosedStartTime.getD now
    let newDuration : ℚ := ((now - startTime : ℤ) : ℚ) / 1000
    let s1 : HealthState :=
      { s with lastEyeState := EyeSt.closedSt, lastEyeStateTime := now,
               eyesClosedStartTime := some startTime,
               eyesClosedDuration := newDuration,
               fdFaceDetected := (eyesVisible || faceDetected),
               fdEyesOpen := false }
    if 5 ≤ newDuration ∧ s.alertBeeping = false then
      { s1 with alertBeeping := true, beepOn := true }
    else s1

/-- `stopBeep()` of part_004 (lines 422-429): clears the `beepInterval` handle
and sets `alertBeeping: false`; nothing else is touched. -/
def stopBeep (s : HealthState) : HealthState :=
  { s with beepOn := false, alertBeeping := false }

/-- `toggleCamera()` of part_004 (lines 261-278).  Turning the camera on
resets the timer fields; turning it off additionally clears the alarm and the
beep interval. -/
def toggleCamera (s : HealthState) : HealthState :=
  if s.cameraActive then
    { s with cameraActive := false, eyesClosedDuration := 0,
             alertBeeping := false, eyesClosedStartTime := none,
             beepOn := false }
  else
    { s with cameraActive := true, eyesClosedDuration := 0,
             eyesClosedStartTime := none }

/-- One classifier observation delivered to `updateEyeState`, tagged with its
`Date.now()` arrival time. -/
structure EyeObsEvent where
  eyesOpen : Bool
  eyesVisible : Bool
  faceDetected : Bool
  time : ℤ
deriving DecidableEq, Repr

/-- The SAFE classification of the spec: `eyesVisible && eyesOpen`. -/
def isSafeObs (o : EyeObsEvent) : Bool :=
  o.eyesVisible && o.eyesOpen

/-- Deliver one observation to the part_004 state machine. -/
def stepObs (s : HealthState) (o : EyeObsEvent) : HealthState :=
  updateEyeState s o.eyesOpen o.eyesVisible o.faceDetected o.time

/-- Deliver a list of observations in order. -/
def runTrace (s : HealthState) (l : List EyeObsEvent) : HealthState :=
  l.foldl stepObs s

/-- The mutator surface of the part_004 store that touches drowsiness state:
an `updateEyeState` call with any observation, `stopBeep`, or
`toggleCamera`. -/
inductive HealthStep : HealthState → HealthState → Prop
  | observe (s : HealthState) (eo ev fd : Bool) (t : ℤ) :
      HealthStep s (updateEyeState s eo ev fd t)
  | acknowledge (s : HealthState) : HealthStep s (stopBeep s)
  | camera (s : HealthState) : HealthStep s (toggleCamera s)

/-- States reachable from the initial store state by any sequence of store
mutations. -/
def ReachableHealth (s : HealthState) : Prop :=
  Relation.ReflTransGen HealthStep initialHealthState s

/-! ### Concrete part_004 states used in concrete evaluations

`alarmedHealthState` is reached by closing the eyes at `t = 1000` and keeping
them closed through `t = 6000` (elapsed 5.0 s, so the alarm has fired).
`staleHealthState` is reached by closing the eyes at `t = 1000` and reopening
them at `t = 1200`, inside the 500 ms debounce window. -/

def alarmedHealthState : HealthState :=
  runTrace initialHealthState
    [⟨false, true, true, 1000⟩, ⟨false, true, true, 6000⟩]

def staleHealthState : HealthState :=
  runTrace initialHealthState
    [⟨false, true, true, 1000⟩, ⟨true, true, true, 1200⟩]

/-! ### The older frame-based store variants (part_003 and part_005)

Both variants store the danger duration as a counter incremented by `0.1` per
`updateEyeState` call (the JavaScript float literal `0.1` is idealised as the
exact rational `1/10`) and use a 6-second threshold. -/

/-- Drowsiness-relevant state of the part_003 store. -/
structure HealthState3 where
  eyesClosedDuration : ℚ
  alertBeeping : Bool
  beepOn : Bool
  fdEyesOpen : Bool
deriving DecidableEq, Repr

/-- `updateEyeState(eyesOpen)` of part_003 (lines 281-316): on open eyes the
duration resets and the alarm and beep stop immediately; on closed eyes the
duration is incremented by a fixed `0.1` per call and the alarm triggers at
`newDuration >= 6`. -/
def updateEyeState3 (s : HealthState3) (eyesOpen : Bool) : HealthState3 :=
  if eyesOpen then
    { s with eyesClosedDuration := 0, alertBeeping := false, beepOn := false,
             fdEyesOpen := true }
  else
    let newDuration : ℚ := s.eyesClosedDuration + 1/10
    let s1 : HealthState3 :=
      { s with eyesClosedDuration := newDuration, fdEyesOpen := false }
    if 6 ≤ newDuration ∧ s.alertBeeping = false then
      { s1 with alertBeeping := true, beepOn := true }
    else s1

/-- Drowsiness-relevant state of the part_005 store (the two-argument
`updateEyeState(eyesOpen, faceDetected)` shape that
`src/client/src/pages/HealthMonitor.tsx` calls). -/
structure HealthState5 where
  cameraActive : Bool
  eyesClosedDuration : ℚ
  alertBeeping : Bool
  beepOn : Bool
  fdFaceDetected : Bool
  fdEyesOpen : Bool
deriving DecidableEq, Repr

/-- The initial part_005 store state (mock `faceDetection` is
`{ faceDetected: false, eyesOpen: true, cameraActive: false }`). -/
def initialHealthState5 : HealthState5 :=
  { cameraActive := false
    eyesClosedDuration := 0
    alertBeeping := false
    beepOn := false
    fdFaceDetected := false
    fdEyesOpen := true }

/-- `updateEyeState(eyesOpen, faceDetected)` of part_005 (lines 283-356): the
safe branch resets the duration only (the alarm keeps running until the stop
button); both unsafe branches increment the duration by a fixed `0.1` per call
and trigger the alarm at `newDuration >= 6`. -/
def updateEyeState5 (s : HealthState5) (eyesOpen faceDetected : Bool) :
    HealthState5 :=
  if eyesOpen && faceDetected then
    { s with eyesClosedDuration := 0, fdFaceDetected := true,
             fdEyesOpen := true }
  else
    let newDuration : ℚ := s.eyesClosedDuration + 1/10
    let s1 : HealthState5 :=
      { s with eyesClosedDuration := newDuration,
               fdFaceDetected := faceDetected, fdEyesOpen := false }
    if 6 ≤ newDuration ∧ s.alertBeeping = false then
      { s1 with alertBeeping := true, beepOn := true }
    else s1

/-- The `catch` handler of `detectEyes` in
`src/client/src/pages/HealthMonitor.tsx` (lines 106-109): a detection-pipeline
exception is converted into the observation `updateEyeState(false, false)`. -/
def hmDetectionErrorStep (s : HealthState5) : HealthState5 :=
  updateEyeState5 s false false

/-! ### The part_017 eye-aspect-ratio pipeline -/

/-- A 2-D facial landmark point. -/
structure Pt where
  x : ℚ
  y : ℚ
deriving DecidableEq, Repr

/-- `calculateEAR(eye)` of part_017 (lines 90-121): requires exactly 6 points
(else 0), guards a zero horizontal distance (returns 0) and an out-of-range
ratio (returns 0); otherwise returns
`(|p1.y-p5.y| + |p2.y-p4.y|) / (2 * |p0.x-p3.x|)`. -/
def calculateEAR : List Pt → ℚ
  | [p0, p1, p2, p3, p4, p5] =>
    let vertical1 := |p1.y - p5.y|
    let vertical2 := |p2.y - p4.y|
    let horizontal := |p0.x - p3.x|
    if horizontal = 0 then 0
    else
      let ear := (vertical1 + vertical2) / (2 * horizontal)
      if ear < 0 ∨ 1 < ear then 0 else ear
  | _ => 0

/-- A geometrically plausible open-eye landmark set (6 points, EAR 2/3). -/
def sampleOpenEye : List Pt :=
  [⟨0, 0⟩, ⟨1, 1⟩, ⟨2, 1⟩, ⟨3, 0⟩, ⟨2, -1⟩, ⟨1, -1⟩]

/-- The smoother's mutable refs in part_017: `earHistoryRef`,
`baselineEARRef`, `calibrationFramesRef`. -/
structure SmootherState where
  earHistory : List ℚ
  baselineEAR : Option ℚ
  calibrationFrames : ℕ
deriving DecidableEq, Repr

/-- The smoother refs at camera start: empty history, no baseline, zero
calibration frames. -/
def initialSmootherState : SmootherState :=
  { earHistory := [], baselineEAR := none, calibrationFrames := 0 }

/-- Arithmetic mean of a list of rationals (`reduce((a,b) => a+b) / length`). -/
def listMean (l : List ℚ) : ℚ :=
  l.sum / (l.length : ℚ)

/-- Result of one smoother pass in part_017. -/
structure SmootherOutput where
  sm : SmootherState
  smoothedEAR : ℚ
  threshold : ℚ
  finalEyesOpen : Bool
deriving DecidableEq, Repr

/-- Lines 186-251 of part_017 for one valid ratio sample `avgEAR`:

* smart buffer reset: if `avgEAR < 0.20` and the buffer is nonempty with
  previous mean `> 0.24`, the buffer is reset to `[avgEAR]`;
* push `avgEAR`, then shift the oldest once the length exceeds
  `EAR_HISTORY_SIZE = 3`; the smoothed EAR is the buffer mean;
* calibration: while fewer than 20 calibration frames and `smoothedEAR >
  0.25`, bump the frame count and raise the baseline by the exponential
  moving average `b * 0.9 + smoothedEAR * 0.1` (only when `smoothedEAR > b`);
* threshold: `min(baseline * 0.8, 0.30)` when a baseline `> 0.25` exists,
  else the fixed `0.26`;
* classification: `finalEyesOpen = !(rawEyesClosed || smoothedEyesClosed ||
  nearThresholdClosed || hardClampClosed)` where `rawEyesClosed = avgEAR <
  threshold`, `smoothedEyesClosed = smoothedEAR < threshold`,
  `nearThresholdClosed = smoothedEAR < threshold + 0.03`, and
  `hardClampClosed = smoothedEAR < 0.26`. -/
def smootherStep (sm : SmootherState) (avgEAR : ℚ) : SmootherOutput :=
  let hist0 : List ℚ :=
    if avgEAR < 20/100 ∧ 0 < sm.earHistory.length ∧
        24/100 < listMean sm.earHistory then
      [avgEAR]
    else sm.earHistory
  let hist1 : List ℚ := hist0 ++ [avgEAR]
  let hist2 : List ℚ := if 3 < hist1.length then hist1.tail else hist1
  let smoothedEAR : ℚ := listMean hist2
  let doCalib : Prop := sm.calibrationFrames < 20 ∧ 25/100 < smoothedEAR
  let base1 : Option ℚ :=
    if doCalib then
      match sm.baselineEAR with
      | none => some smoothedEAR
      | some b =>
        if b < smoothedEAR then some (b * (90/100) + smoothedEAR * (10/100))
        else some b
    else sm.baselineEAR
  let calib1 : ℕ :=
    if doCalib then sm.calibrationFrames + 1 else sm.calibrationFrames
  let threshold : ℚ :=
    match base1 with
    | some b => if 25/100 < b then min (b * (80/100)) (30/100) else 26/100
    | none => 26/100
  { sm := { earHistory := hist2, baselineEAR := base1,
            calibrationFrames := calib1 },
    smoothedEAR := smoothedEAR, threshold := threshold,
    finalEyesOpen := !(decide (avgEAR < threshold) ||
      decide (smoothedEAR < threshold) ||
      decide (smoothedEAR < threshold + 3/100) ||
      decide (smoothedEAR < 26/100)) }

/-- Result of one `detectEyes` pass through the valid-landmarks branch of
part_017: the post-catch store state, the post-pass smoother refs, and whether
the `ReferenceError` on the undeclared `definitelyClosed` identifier
(line 267) was thrown (and swallowed by the `catch` at lines 345-352). -/
structure DetectOutcome where
  hs : HealthState
  sm : SmootherState
  threw : Bool
deriving DecidableEq, Repr

/-- Lines 159-277 of part_017, entered when a face is detected and both eye
landmark sets have exactly 6 points:

* if both per-eye EARs are 0 (invalid), the frame is treated as eyes not
  visible and `updateEyeState(false, false, true)` is delivered (line 172);
* otherwise `avgEAR` falls back to the single valid eye, or averages both;
  the smoother refs are updated in place (lines 188-222), and then the
  status-logging statement at line 267 reads the undeclared identifier
  `definitelyClosed`, throwing a `ReferenceError` before the
  `updateEyeState(finalEyesOpen, true, true)` call at line 277 can run; the
  surrounding `catch` swallows the error, so the store state is unchanged. -/
def detectEyesValid (leftEye rightEye : List Pt) (sm : SmootherState)
    (hs : HealthState) (now : ℤ) : DetectOutcome :=
  let leftEAR := calculateEAR leftEye
  let rightEAR := calculateEAR rightEye
  if leftEAR = 0 ∧ rightEAR = 0 then
    { hs := updateEyeState hs false false true now, sm := sm, threw := false }
  else
    let avgEAR : ℚ :=
      if leftEAR = 0 then rightEAR
      else if rightEAR = 0 then leftEAR
      else (leftEAR + rightEAR) / 2
    { hs := hs, sm := (smootherStep sm avgEAR).sm, threw := true }

/-! ### The HealthMonitor.tsx EAR variant, with JavaScript number semantics -/

/-- A JavaScript number as produced by the guard-free EAR computation: a
finite value, `+Infinity`, or `NaN`. -/
inductive JsNum where
  | fin (q : ℚ) : JsNum
  | posInf : JsNum
  | nan : JsNum
deriving DecidableEq, Repr

/-- JavaScript `x > c` for such a number: `Infinity > c` is true and
`NaN > c` is false. -/
def jsGt (x : JsNum) (c : ℚ) : Bool :=
  match x with
  | JsNum.fin q => decide (c < q)
  | JsNum.posInf => true
  | JsNum.nan => false

/-- `calculateEAR(eye)` of `src/client/src/pages/HealthMonitor.tsx`
(lines 32-42).  There are no guards: `eye[1].y` on a list with fewer than 6
points reads a property of `undefined` and throws a `TypeError`
(`Except.error`); with 6 points and a zero horizontal distance the JavaScript
division yields `+Infinity` (positive numerator) or `NaN` (zero
numerator). -/
def hmCalculateEAR : List Pt → Except Unit JsNum
  | p0 :: p1 :: p2 :: p3 :: p4 :: p5 :: _ =>
    let vertical1 := |p1.y - p5.y|
    let vertical2 := |p2.y - p4.y|
    let horizontal := |p0.x - p3.x|
    if horizontal = 0 then
      if vertical1 + vertical2 = 0 then Except.ok JsNum.nan
      else Except.ok JsNum.posInf
    else Except.ok (JsNum.fin ((vertical1 + vertical2) / (2 * horizontal)))
  | _ => Except.error ()

/-! ### The mock telemetry server (src/server/index.js) -/

/-- One generated sensor record. -/
structure DrillSensors where
  rpm : ℚ
  vibration : ℚ
  sound : ℚ
  temperature : ℚ
  humidity : ℚ
  pressure : ℚ
  current : ℚ
deriving DecidableEq, Repr

/-- The server's mutable `systemState` (plus the two module-level mutable
cells it writes: `SENSORS.temperature.baseline` and
`systemState.lastUpdate`). -/
structure SystemState where
  isRunning : Bool
  rpmTarget : ℚ
  feedRate : ℚ
  totalRuntime : ℤ
  sessionStartTime : Option ℤ
  tempBaseline : ℚ
  lastUpdate : ℤ
deriving DecidableEq, Repr

/-- The server's initial `systemState` (`rpmTarget: 1000, feedRate: 5`) and
initial temperature baseline 22. -/
def initialSystemState : SystemState :=
  { isRunning := false
    rpmTarget := 1000
    feedRate := 5
    totalRuntime := 0
    sessionStartTime := none
    tempBaseline := 22
    lastUpdate := 0 }

/-- The documented range of the rpm sensor in the server's `SENSORS` table:
`rpm: { min: 0, max: 3000, ... }`. -/
def rpmDocMin : ℚ := 0

/-- See `rpmDocMin`. -/
def rpmDocMax : ℚ := 3000

/-- A recognized `CONTROL` command. -/
inductive ControlCommand where
  | start : ControlCommand
  | stop : ControlCommand
  | setRpm (v : ℚ) : ControlCommand
  | setFeed (v : ℚ) : ControlCommand
  | reset : ControlCommand
deriving DecidableEq, Repr

/-- `handleControl(payload)` of src/server/index.js (lines 118-136).  Note
that `SET_RPM` and `SET_FEED` store `payload.value` raw, with no clamping or
validation. -/
def handleControl (s : SystemState) (now : ℤ) : ControlCommand → SystemState
  | ControlCommand.start =>
    { s with isRunning := true, sessionStartTime := some now }
  | ControlCommand.stop =>
    match s.sessionStartTime with
    | some t0 =>
      if t0 = 0 then { s with isRunning := false }
      else
        { s with isRunning := false,
                 totalRuntime := s.totalRuntime + (now - t0),
                 sessionStartTime := none }
    | none => { s with isRunning := false }
  | ControlCommand.setRpm v => { s with rpmTarget := v }
  | ControlCommand.setFeed v => { s with feedRate := v }
  | ControlCommand.reset => { s with tempBaseline := 22 }

/-- The `Math.random()` draws consumed by one `generateSensorData()` call:
seven per-sensor noise draws and the spike draw, each in `[0, 1]`. -/
structure NoiseDraws where
  rpm : ℚ
  vibration : ℚ
  sound : ℚ
  temperature : ℚ
  humidity : ℚ
  pressure : ℚ
  current : ℚ
  spike : ℚ
deriving DecidableEq, Repr

/-- The zero-noise draw assignment: every `Math.random()` returns `0.5`
(centre of the noise interval) and no spike fires. -/
def halfDraws : NoiseDraws :=
  { rpm := 1/2, vibration := 1/2, sound := 1/2, temperature := 1/2,
    humidity := 1/2, pressure := 1/2, current := 1/2, spike := 0 }

/-- `generateSensorData()` of src/server/index.js (lines 36-79), with the
clock and random draws made explicit.  Sensor noise is
`(Math.random() - 0.5) * noiseAmount`; only lower bounds are enforced with
`Math.max`; the temperature baseline ramps by `0.05 * dt` up to 75 when
running and decays by `0.1 * dt` down to 22 otherwise; a spike draw `> 0.98`
while running adds 30 to vibration and 2 to current after the lower-bound
clamps.  Returns the sensor record and the updated state (`lastUpdate`,
temperature baseline). -/
def generateSensorData (s : SystemState) (now : ℤ) (r : NoiseDraws) :
    DrillSensors × SystemState :=
  let dt : ℚ := ((now - s.lastUpdate : ℤ) : ℚ) / 1000
  let currentRpm : ℚ := if s.isRunning then s.rpmTarget else 0
  let vibrationBase : ℚ :=
    if s.isRunning then (currentRpm / 3000) * 60 + 10 else 2
  let soundBase : ℚ :=
    if s.isRunning then (currentRpm / 3000) * 50 + 60 else 35
  let pressureBase : ℚ := if s.isRunning then s.feedRate * 30 else 0
  let currentBase : ℚ :=
    if s.isRunning then (currentRpm / 3000) * 10 + (pressureBase / 500) * 2
    else 1/10
  let tempBaseline : ℚ :=
    if s.isRunning then min (s.tempBaseline + (5/100) * dt) 75
    else max (s.tempBaseline - (1/10) * dt) 22
  let sensors : DrillSensors :=
    { rpm := max 0 (currentRpm + (r.rpm - 1/2) * 50)
      vibration := max 0 (vibrationBase + (r.vibration - 1/2) * 5)
      sound := max 30 (soundBase + (r.sound - 1/2) * 2)
      temperature := tempBaseline + (r.temperature - 1/2) * (1/2)
      humidity := 45 + (r.humidity - 1/2) * 1
      pressure := max 0 (pressureBase + (r.pressure - 1/2) * 5)
      current := max 0 (currentBase + (r.current - 1/2) * (1/5)) }
  let sensors2 : DrillSensors :=
    if s.isRunning ∧ 49/50 < r.spike then
      { sensors with vibration := sensors.vibration + 30,
                     current := sensors.current + 2 }
    else sensors
  (sensors2, { s with lastUpdate := now, tempBaseline := tempBaseline })

/-! ## Theorems -/

/-- `'closed'` and `'open'` are distinct store values (evaluation helper). -/
@[simp] theorem eyeSt_closed_ne_open : (EyeSt.closedSt = EyeSt.openSt) = False := by
  simp

/-- `null` and `'open'` are distinct store values (evaluation helper). -/
@[simp] theorem eyeSt_none_ne_open : (EyeSt.noneSt = EyeSt.openSt) = False := by
  simp

/-! ### Basic step lemmas for the part_004 machine -/

/-- `(a ms) / 1000 ≥ 5 s` exactly when `a ≥ 5000 ms`: the stored rational
duration crosses the 5-second alarm threshold exactly when the elapsed
millisecond count reaches 5000. -/
theorem five_le_div_iff (a : ℤ) : (5 : ℚ) ≤ (a : ℚ) / 1000 ↔ 5000 ≤ a := by
  rw [le_div_iff₀ (by norm_num : (0 : ℚ) < 1000)]
  constructor
  · intro h
    exact_mod_cast h
  · intro h
    exact_mod_cast h

/-- `updateEyeState` never clears an active alarm: the safe branch does not
touch `alertBeeping`, and the unsafe branches only ever set it. -/
theorem updateEyeState_alert_mono (s : HealthState) (eo ev fd : Bool) (t : ℤ)
    (h : s.alertBeeping = true) :
    (updateEyeState s eo ev fd t).alertBeeping = true := by
  unfold updateEyeState
  split_ifs <;> simp_all
  all_goals split_ifs <;> simp_all

/-- A SAFE observation (`eyesVisible && eyesOpen`) leaves `alertBeeping`
unchanged. -/
theorem updateEyeState_safe_alert (s : HealthState) (eo ev fd : Bool) (t : ℤ)
    (h : (ev && eo) = true) :
    (updateEyeState s eo ev fd t).alertBeeping = s.alertBeeping := by
  unfold updateEyeState
  split_ifs <;> simp_all
  all_goals split_ifs <;> simp_all

/-- A SAFE observation leaves the beep driver handle unchanged. -/
theorem updateEyeState_safe_beep (s : HealthState) (eo ev fd : Bool) (t : ℤ)
    (h : (ev && eo) = true) :
    (updateEyeState s eo ev fd t).beepOn = s.beepOn := by
  unfold updateEyeState
  split_ifs <;> simp_all
  all_goals split_ifs <;> simp_all

/-- An UNSAFE observation keeps the stored start timestamp, or sets it to
`now` when it was `null` (`let startTime = eyesClosedStartTime ?? now`). -/
theorem updateEyeState_unsafe_start (s : HealthState) (eo ev fd : Bool) (t : ℤ)
    (h : (ev && eo) = false) :
    (updateEyeState s eo ev fd t).eyesClosedStartTime =
      some (s.eyesClosedStartTime.getD t) := by
  unfold updateEyeState
  split_ifs <;> simp_all
  all_goals split_ifs <;> simp_all

/-- An UNSAFE observation recomputes the duration as
`(now - startTime) / 1000` — a pure timestamp subtraction, independent of the
previously stored duration. -/
theorem updateEyeState_unsafe_duration (s : HealthState) (eo ev fd : Bool)
    (t : ℤ) (h : (ev && eo) = false) :
    (updateEyeState s eo ev fd t).eyesClosedDuration =
      ((t - s.eyesClosedStartTime.getD t : ℤ) : ℚ) / 1000 := by
  unfold updateEyeState
  split_ifs <;> simp_all
  all_goals split_ifs <;> simp_all

/-- After an UNSAFE observation the alarm is on exactly when it was already on
or the elapsed milliseconds since the start timestamp reach 5000 (the
`newDuration >= 5 && !alertBeeping` trigger). -/
theorem updateEyeState_unsafe_alert (s : HealthState) (eo ev fd : Bool)
    (t : ℤ) (h : (ev && eo) = false) :
    (updateEyeState s eo ev fd t).alertBeeping =
      (s.alertBeeping || decide (5000 ≤ t - s.eyesClosedStartTime.getD t)) := by
  unfold updateEyeState
  rw [if_neg (by simp_all)]
  by_cases ha : s.alertBeeping = true
  · rw [if_neg (by simp [ha])]
    simp [ha]
  · simp only [Bool.not_eq_true] at ha
    by_cases hd : (5 : ℚ) ≤ ((t - s.eyesClosedStartTime.getD t : ℤ) : ℚ) / 1000
    · rw [if_pos ⟨hd, ha⟩]
      simp [ha, (five_le_div_iff _).mp hd]
    · rw [if_neg (by tauto)]
      have : ¬ (5000 ≤ t - s.eyesClosedStartTime.getD t) := by
        intro hc
        exact hd ((five_le_div_iff _).mpr hc)
      simp [ha, this]

/-! ### Trace lemmas -/

@[simp] theorem runTrace_nil (s : HealthState) : runTrace s [] = s := rfl

@[simp] theorem runTrace_cons (s : HealthState) (o : EyeObsEvent)
    (rest : List EyeObsEvent) :
    runTrace s (o :: rest) = runTrace (stepObs s o) rest := rfl

/-- Once the alarm is on, no sequence of further observations of any kind can
turn it off through `updateEyeState`. -/
theorem runTrace_alert_mono (l : List EyeObsEvent) (s : HealthState)
    (h : s.alertBeeping = true) : (runTrace s l).alertBeeping = true := by
  induction l generalizing s with
  | nil => exact h
  | cons o rest ih =>
    exact ih _ (updateEyeState_alert_mono _ _ _ _ _ h)

/-- Running a list of UNSAFE observations from a state whose danger timer is
already started keeps the start timestamp, and ends with the alarm on exactly
when it started on or some observation in the list arrived at least 5000 ms
after the start timestamp. -/
theorem runTrace_unsafe_char (l : List EyeObsEvent) (s : HealthState) (t0 : ℤ)
    (h0 : s.eyesClosedStartTime = some t0)
    (hu : ∀ o ∈ l, isSafeObs o = false) :
    (runTrace s l).eyesClosedStartTime = some t0 ∧
    (runTrace s l).alertBeeping =
      (s.alertBeeping || l.any fun o => decide (5000 ≤ o.time - t0)) := by
  induction l generalizing s with
  | nil => simp [h0]
  | cons o rest ih =>
    have ho : (o.eyesVisible && o.eyesOpen) = false := hu o (by simp)
    have hstart : (stepObs s o).eyesClosedStartTime = some t0 := by
      rw [stepObs, updateEyeState_unsafe_start _ _ _ _ _ ho, h0]
      rfl
    have halert : (stepObs s o).alertBeeping =
        (s.alertBeeping || decide (5000 ≤ o.time - t0)) := by
      rw [stepObs, updateEyeState_unsafe_alert _ _ _ _ _ ho, h0]
      rfl
    have hrest : ∀ p ∈ rest, isSafeObs p = false := fun p hp => hu p (by simp [hp])
    obtain ⟨ih1, ih2⟩ := ih (stepObs s o) hstart hrest
    refine ⟨by simpa using ih1, ?_⟩
    rw [runTrace_cons, ih2, halert, List.any_cons, Bool.or_assoc]

/-- Over a list whose `time` fields are pairwise nondecreasing, some element of
the `(k+1)`-prefix has crossed the elapsed-time bound exactly when the `k`-th
element has. -/
theorem any_take_monotone (c t0 : ℤ) (l : List EyeObsEvent)
    (hmono : l.Pairwise fun a b => a.time ≤ b.time) (k : ℕ) (hk : k < l.length) :
    ((l.take (k + 1)).any fun o => decide (c ≤ o.time - t0)) =
      decide (c ≤ (l.get ⟨k, hk⟩).time - t0) := by
  induction l generalizing k with
  | nil => simp at hk
  | cons a rest ih =>
    obtain ⟨hall, hmr⟩ := List.pairwise_cons.mp hmono
    cases k with
    | zero => simp
    | succ j =>
      have hj : j < rest.length := by simpa using hk
      have hrec := ih hmr j hj
      have hget : ((a :: rest).get ⟨j + 1, hk⟩) = rest.get ⟨j, hj⟩ := rfl
      rw [List.take_succ_cons, List.any_cons, hrec, hget]
      have hab : a.time ≤ (rest.get ⟨j, hj⟩).time :=
        hall _ (rest.get_mem _ _)
      by_cases hca : c ≤ a.time - t0
      · have hgoal : c ≤ (rest.get ⟨j, hj⟩).time - t0 := by omega
        simp only [List.get_eq_getElem] at hgoal
        simp [hca, hgoal]
      · simp [hca]

/-- C2: feeding a sequence of UNSAFE classifications in nondecreasing time
order to `updateEyeState` from a state with no alarm and no running timer, the
alarm is on after the `k`-th observation exactly when that observation arrived
at least 5000 ms (= `ALARM_THRESHOLD_SECONDS`, a `>=` comparison) after the
first one: it becomes true on the first observation whose elapsed danger
duration reaches the threshold, and never while the elapsed duration is
strictly below it. -/
theorem alarm_trigger_boundary (s0 : HealthState) (l : List EyeObsEvent)
    (hAlarm : s0.alertBeeping = false) (hStart : s0.eyesClosedStartTime = none)
    (hu : ∀ o ∈ l, isSafeObs o = false)
    (hmono : l.Pairwise fun a b => a.time ≤ b.time)
    (k : ℕ) (hk : k < l.length) :
    ((runTrace s0 (l.take (k + 1))).alertBeeping = true ↔
      5000 ≤ (l.get ⟨k, hk⟩).time -
        (l.get ⟨0, Nat.lt_of_le_of_lt (Nat.zero_le k) hk⟩).time) := by
  cases l with
  | nil => simp at hk
  | cons o0 rest =>
    have ho0 : (o0.eyesVisible && o0.eyesOpen) = false := hu o0 (by simp)
    have hstart1 : (stepObs s0 o0).eyesClosedStartTime = some o0.time := by
      rw [stepObs, updateEyeState_unsafe_start _ _ _ _ _ ho0, hStart]
      rfl
    have halert1 : (stepObs s0 o0).alertBeeping = false := by
      rw [stepObs, updateEyeState_unsafe_alert _ _ _ _ _ ho0, hStart, hAlarm]
      simp
    obtain ⟨hall, hmr⟩ := List.pairwise_cons.mp hmono
    have hrest : ∀ p ∈ rest, isSafeObs p = false := fun p hp => hu p (by simp [hp])
    cases k with
    | zero =>
      rw [List.take_succ_cons, List.take_zero, runTrace_cons, runTrace_nil]
      rw [halert1]
      simp
    | succ j =>
      have hj : j < rest.length := by simpa using hk
      have htk : ∀ p ∈ rest.take (j + 1), isSafeObs p = false := fun p hp =>
        hrest p (List.mem_of_mem_take hp)
      obtain ⟨-, hchar⟩ :=
        runTrace_unsafe_char (rest.take (j + 1)) (stepObs s0 o0) o0.time hstart1 htk
      rw [List.take_succ_cons, runTrace_cons, hchar, halert1, Bool.false_or,
        any_take_monotone 5000 o0.time rest hmr j hj]
      simp

/-! ### Store invariants -/

/-- One `updateEyeState` call preserves the invariant "no start timestamp
implies zero duration". -/
theorem updateEyeState_timer_inv (s : HealthState) (eo ev fd : Bool) (t : ℤ)
    (hs : s.eyesClosedStartTime = none → s.eyesClosedDuration = 0) :
    (updateEyeState s eo ev fd t).eyesClosedStartTime = none →
      (updateEyeState s eo ev fd t).eyesClosedDuration = 0 := by
  unfold updateEyeState
  split_ifs <;> simp_all
  all_goals split_ifs <;> simp_all

/-- One `updateEyeState` call preserves the invariant "the beep driver runs
exactly when the alarm flag is set". -/
theorem updateEyeState_beep_inv (s : HealthState) (eo ev fd : Bool) (t : ℤ)
    (hs : s.beepOn = s.alertBeeping) :
    (updateEyeState s eo ev fd t).beepOn =
      (updateEyeState s eo ev fd t).alertBeeping := by
  unfold updateEyeState
  split_ifs <;> simp_all
  all_goals split_ifs <;> simp_all

/-- In every reachable store state, a `null` start timestamp comes with a zero
stored duration. -/
theorem reachable_timer_inv (s : HealthState) (h : ReachableHealth s) :
    s.eyesClosedStartTime = none → s.eyesClosedDuration = 0 := by
  induction h with
  | refl => intro _; rfl
  | tail _ hstep ih =>
    cases hstep with
    | observe eo ev fd t => exact updateEyeState_timer_inv _ eo ev fd t ih
    | acknowledge => exact ih
    | camera =>
      unfold toggleCamera
      split_ifs <;> simp

/-- In every reachable store state, the beep driver handle is set exactly when
the alarm flag is. -/
theorem reachable_beep_inv (s : HealthState) (h : ReachableHealth s) :
    s.beepOn = s.alertBeeping := by
  induction h with
  | refl => rfl
  | tail _ hstep ih =>
    cases hstep with
    | observe eo ev fd t => exact updateEyeState_beep_inv _ eo ev fd t ih
    | acknowledge => rfl
    | camera =>
      unfold toggleCamera
      split_ifs <;> simp_all

/-- C10: in any reachable store state in which the alarm flag
(`alertBeeping`) is false, invoking the Acknowledge command (`stopBeep`) is a
no-op: the state is unchanged in every field (`stopBeep` is a total function,
so no error is raised). -/
theorem stopBeep_noop_when_not_alarmed (s : HealthState)
    (hr : ReachableHealth s) (h : s.alertBeeping = false) :
    stopBeep s = s := by
  have hb : s.beepOn = false := (reachable_beep_inv s hr).trans h
  cases s
  simp_all [stopBeep]

/-- Witness for C10 at a concrete reachable state: acknowledging in the
initial (never-alarmed) state changes nothing. -/
theorem stopBeep_noop_when_not_alarmed_witness :
    stopBeep initialHealthState = initialHealthState :=
  stopBeep_noop_when_not_alarmed initialHealthState Relation.ReflTransGen.refl rfl


/-! ### Concrete-state evaluation helpers -/

/-- Evaluated form of `alarmedHealthState`: eyes closed from `t = 1000`, the
second observation at `t = 6000` has elapsed 5.0 s, so the alarm fired. -/
theorem alarmedHealthState_eq :
    alarmedHealthState =
      { cameraActive := false, eyesClosedDuration := 5, alertBeeping := true,
        lastEyeState := EyeSt.closedSt, lastEyeStateTime := 6000,
        eyesClosedStartTime := some 1000, beepOn := true,
        fdFaceDetected := true, fdEyesOpen := false } := by
  norm_num [alarmedHealthState, runTrace, stepObs, updateEyeState,
    initialHealthState]

/-- Evaluated form of `staleHealthState`: a SAFE observation at `t = 1200`,
200 ms into the debounce window, leaves the start timestamp and the stale
duration from `t = 1000` in place. -/
theorem staleHealthState_eq :
    staleHealthState =
      { cameraActive := false, eyesClosedDuration := 0, alertBeeping := false,
        lastEyeState := EyeSt.openSt, lastEyeStateTime := 1200,
        eyesClosedStartTime := some 1000, beepOn := false,
        fdFaceDetected := true, fdEyesOpen := true } := by
  norm_num [staleHealthState, runTrace, stepObs, updateEyeState,
    initialHealthState]

/-! ### C1: alarm persistence and the Acknowledge command -/

/-- C1 (amended): once `alertBeeping` is true it stays true across any number
of subsequent SAFE classifications; the explicit Acknowledge command
(`stopBeep`) then clears the alarm flag and stops the sound driver, but leaves
the timer state (`eyesClosedDuration`, `eyesClosedStartTime`) and every other
field unchanged. -/
theorem alarm_persists_until_acknowledge (s : HealthState)
    (l : List EyeObsEvent) (h : s.alertBeeping = true)
    (_hsafe : ∀ o ∈ l, isSafeObs o = true) :
    (runTrace s l).alertBeeping = true ∧
    (stopBeep (runTrace s l)).alertBeeping = false ∧
    (stopBeep (runTrace s l)).beepOn = false ∧
    (stopBeep (runTrace s l)).eyesClosedDuration
      = (runTrace s l).eyesClosedDuration ∧
    (stopBeep (runTrace s l)).eyesClosedStartTime
      = (runTrace s l).eyesClosedStartTime := by
  exact ⟨runTrace_alert_mono l s h, rfl, rfl, rfl, rfl⟩

/-- Witness for C1 at a concrete alarmed state and a concrete run of two SAFE
observations. -/
theorem alarm_persists_until_acknowledge_witness :
    (runTrace alarmedHealthState
      [⟨true, true, true, 6100⟩, ⟨true, true, true, 6700⟩]).alertBeeping
        = true ∧
    (stopBeep (runTrace alarmedHealthState
      [⟨true, true, true, 6100⟩, ⟨true, true, true, 6700⟩])).alertBeeping
        = false ∧
    (stopBeep (runTrace alarmedHealthState
      [⟨true, true, true, 6100⟩, ⟨true, true, true, 6700⟩])).beepOn = false ∧
    (stopBeep (runTrace alarmedHealthState
      [⟨true, true, true, 6100⟩, ⟨true, true, true, 6700⟩])).eyesClosedDuration
      = (runTrace alarmedHealthState
          [⟨true, true, true, 6100⟩, ⟨true, true, true, 6700⟩]).eyesClosedDuration ∧
    (stopBeep (runTrace alarmedHealthState
      [⟨true, true, true, 6100⟩, ⟨true, true, true, 6700⟩])).eyesClosedStartTime
      = (runTrace alarmedHealthState
          [⟨true, true, true, 6100⟩, ⟨true, true, true, 6700⟩]).eyesClosedStartTime :=
  alarm_persists_until_acknowledge alarmedHealthState
    [⟨true, true, true, 6100⟩, ⟨true, true, true, 6700⟩]
    (by rw [alarmedHealthState_eq]) (by decide)

/-- Counterexample to C1 as stated: in the concrete alarmed state reached by
keeping the eyes closed from `t = 1000` to `t = 6000`, `stopBeep` does NOT
clear the timer state: `eyesClosedDuration` stays 5 (not 0) and
`eyesClosedStartTime` stays `some 1000` (not `null`). -/
theorem acknowledge_leaves_timer_state :
    alarmedHealthState.alertBeeping = true ∧
    (stopBeep alarmedHealthState).eyesClosedDuration = 5 ∧
    (stopBeep alarmedHealthState).eyesClosedDuration ≠ 0 ∧
    (stopBeep alarmedHealthState).eyesClosedStartTime = some 1000 ∧
    (stopBeep alarmedHealthState).eyesClosedStartTime ≠ none := by
  rw [alarmedHealthState_eq]
  refine ⟨rfl, rfl, by norm_num [stopBeep], rfl, by simp [stopBeep]⟩

/-! ### C2 witness -/

/-- Witness for C2: the literal spec scenario.  UNSAFE observations at
`t = 1000, 5999, 6000`: after the `t = 5999` observation (elapsed 4.999 s)
the alarm is still off; after the `t = 6000` observation (elapsed exactly
5.0 s, the `>=` boundary) it is on. -/
theorem alarm_trigger_boundary_witness :
    (runTrace initialHealthState
      ([⟨false, true, true, 1000⟩, ⟨false, false, false, 5999⟩,
        ⟨false, false, true, 6000⟩].take 2)).alertBeeping = false ∧
    (runTrace initialHealthState
      ([⟨false, true, true, 1000⟩, ⟨false, false, false, 5999⟩,
        ⟨false, false, true, 6000⟩].take 3)).alertBeeping = true := by
  have h1 := alarm_trigger_boundary initialHealthState
    [⟨false, true, true, 1000⟩, ⟨false, false, false, 5999⟩,
      ⟨false, false, true, 6000⟩]
    rfl rfl (by decide) (by decide) 1 (by norm_num)
  have h2 := alarm_trigger_boundary initialHealthState
    [⟨false, true, true, 1000⟩, ⟨false, false, false, 5999⟩,
      ⟨false, false, true, 6000⟩]
    rfl rfl (by decide) (by decide) 2 (by norm_num)
  constructor
  · have hne : (runTrace initialHealthState
        ([⟨false, true, true, 1000⟩, ⟨false, false, false, 5999⟩,
          ⟨false, false, true, 6000⟩].take 2)).alertBeeping ≠ true := by
      intro hc
      have := h1.mp hc
      norm_num at this
    simpa using hne
  · exact h2.mpr (by decide)

/-! ### C3: wall-clock duration -/

/-- C3 (amended): in the part_004 machine, every `updateEyeState` step with an
UNSAFE classification stores `eyesClosedDuration = (now - startTime) / 1000`,
a pure timestamp subtraction independent of the previously stored duration
(so no fixed per-frame increment); in every reachable state a `null` start
timestamp comes with duration 0.  The older part_003 variant, by contrast,
does increment the duration by a fixed `0.1` per call. -/
theorem duration_wall_clock :
    (∀ (s : HealthState) (eo ev fd : Bool) (t : ℤ), (ev && eo) = false →
      (updateEyeState s eo ev fd t).eyesClosedStartTime
          = some (s.eyesClosedStartTime.getD t) ∧
      (updateEyeState s eo ev fd t).eyesClosedDuration
          = ((t - s.eyesClosedStartTime.getD t : ℤ) : ℚ) / 1000) ∧
    (∀ s : HealthState, ReachableHealth s →
      s.eyesClosedStartTime = none → s.eyesClosedDuration = 0) ∧
    (∀ s3 : HealthState3,
      (updateEyeState3 s3 false).eyesClosedDuration
        = s3.eyesClosedDuration + 1/10) := by
  refine ⟨fun s eo ev fd t h =>
    ⟨updateEyeState_unsafe_start s eo ev fd t h,
      updateEyeState_unsafe_duration s eo ev fd t h⟩,
    reachable_timer_inv, fun s3 => ?_⟩
  unfold updateEyeState3
  split_ifs <;> simp_all
  all_goals split_ifs <;> simp_all

/-- Witness for C3 at concrete inputs: an unsafe step at `t = 1000` from the
initial state, the initial reachable state itself, and a part_003 step from a
state with 3.0 s accumulated. -/
theorem duration_wall_clock_witness :
    ((updateEyeState initialHealthState false true true 1000).eyesClosedStartTime
        = some (initialHealthState.eyesClosedStartTime.getD 1000) ∧
      (updateEyeState initialHealthState false true true 1000).eyesClosedDuration
        = ((1000 - initialHealthState.eyesClosedStartTime.getD 1000 : ℤ) : ℚ) / 1000) ∧
    initialHealthState.eyesClosedDuration = 0 ∧
    (updateEyeState3 ⟨3, false, false, true⟩ false).eyesClosedDuration
      = 3 + 1/10 := by
  obtain ⟨h1, h2, h3⟩ := duration_wall_clock
  exact ⟨h1 initialHealthState false true true 1000 (by decide),
    h2 initialHealthState Relation.ReflTransGen.refl rfl,
    h3 ⟨3, false, false, true⟩⟩

/-- Counterexample to C3 as stated: after the SAFE step at `t = 1200` (inside
the debounce window), the start timestamp is non-null (`some 1000`) but the
stored duration is the stale 0 from the `t = 1000` step, not
`(now - startTime) / 1000 = 0.2`. -/
theorem duration_stale_after_safe_step :
    staleHealthState.eyesClosedStartTime = some 1000 ∧
    staleHealthState.eyesClosedDuration = 0 ∧
    staleHealthState.eyesClosedDuration
      ≠ ((1200 - 1000 : ℤ) : ℚ) / 1000 := by
  rw [staleHealthState_eq]
  refine ⟨rfl, rfl, by norm_num⟩


/-! ### C4: the debounce law -/

/-- A SAFE observation arriving while the debounce timer runs (eyes marked
open since time `u0 ≠ 0`, current frame strictly less than 500 ms after `u0`)
changes only the displayed `faceDetection` fields: in particular it does not
reset the danger timer. -/
theorem safe_step_in_debounce (s : HealthState) (u0 : ℤ)
    (hlast : s.lastEyeState = EyeSt.openSt) (htime : s.lastEyeStateTime = u0)
    (hu0 : u0 ≠ 0) (o : EyeObsEvent) (hsafe : isSafeObs o = true)
    (hwin : o.time < u0 + 500) :
    stepObs s o = { s with fdFaceDetected := true, fdEyesOpen := true } := by
  have hb : (o.eyesVisible && o.eyesOpen) = true := hsafe
  have hnot : ¬ (500 ≤ o.time - u0) := by omega
  simp [stepObs, updateEyeState, hb, htime, hlast, hu0, hnot]

/-- A whole run of SAFE observations inside the debounce window is a no-op on
a state whose displayed fields already show open eyes. -/
theorem run_safe_debounce (rest : List EyeObsEvent) (s : HealthState)
    (u0 : ℤ) (hlast : s.lastEyeState = EyeSt.openSt)
    (htime : s.lastEyeStateTime = u0) (hu0 : u0 ≠ 0)
    (hfd : s.fdFaceDetected = true) (hfe : s.fdEyesOpen = true)
    (hsafe : ∀ o ∈ rest, isSafeObs o = true)
    (hwin : ∀ o ∈ rest, o.time < u0 + 500) :
    runTrace s rest = s := by
  revert hsafe hwin
  induction rest with
  | nil => intro _ _; rfl
  | cons o tl ih =>
    intro hsafe hwin
    have hstep : stepObs s o
        = { s with fdFaceDetected := true, fdEyesOpen := true } :=
      safe_step_in_debounce s u0 hlast htime hu0 o (hsafe o (by simp))
        (hwin o (by simp))
    have hself :
        ({ s with fdFaceDetected := true, fdEyesOpen := true } : HealthState)
          = s := by
      cases s
      simp_all
    rw [runTrace_cons, hstep, hself]
    exact ih (fun p hp => hsafe p (List.mem_cons_of_mem o hp))
      (fun p hp => hwin p (List.mem_cons_of_mem o hp))

/-- C4: starting from any state with a running danger timer (start timestamp
`t0`, eyes last marked closed), a SAFE interruption `g0 :: rest` whose frames
all arrive strictly less than 500 ms after the first SAFE frame does NOT
reset `eyesClosedStartTime`; when an UNSAFE observation `r` then resumes, the
elapsed danger duration is computed from the original `t0`, not from the
resumption point. -/
theorem debounce_preserves_danger_start (s : HealthState) (t0 : ℤ)
    (hstart : s.eyesClosedStartTime = some t0)
    (hclosed : s.lastEyeState = EyeSt.closedSt)
    (g0 : EyeObsEvent) (hg0 : isSafeObs g0 = true) (hg0t : g0.time ≠ 0)
    (rest : List EyeObsEvent) (hsafe : ∀ o ∈ rest, isSafeObs o = true)
    (hwin : ∀ o ∈ rest, o.time < g0.time + 500)
    (r : EyeObsEvent) (hr : isSafeObs r = false) :
    (runTrace s (g0 :: rest)).eyesClosedStartTime = some t0 ∧
    (runTrace s (g0 :: rest)).eyesClosedDuration = s.eyesClosedDuration ∧
    (stepObs (runTrace s (g0 :: rest)) r).eyesClosedStartTime = some t0 ∧
    (stepObs (runTrace s (g0 :: rest)) r).eyesClosedDuration
      = ((r.time - t0 : ℤ) : ℚ) / 1000 := by
  have hb : (g0.eyesVisible && g0.eyesOpen) = true := hg0
  have hfirst : stepObs s g0 =
      { s with lastEyeState := EyeSt.openSt, lastEyeStateTime := g0.time,
               fdFaceDetected := true, fdEyesOpen := true } := by
    simp [stepObs, updateEyeState, hb, hclosed]
  have hrun : runTrace (stepObs s g0) rest = stepObs s g0 := by
    apply run_safe_debounce rest (stepObs s g0) g0.time
    · rw [hfirst]
    · rw [hfirst]
    · exact hg0t
    · rw [hfirst]
    · rw [hfirst]
    · exact hsafe
    · exact hwin
  have hstart2 : (stepObs s g0).eyesClosedStartTime = some t0 := by
    rw [hfirst]
    exact hstart
  have hrb : (r.eyesVisible && r.eyesOpen) = false := hr
  refine ⟨?_, ?_, ?_, ?_⟩
  · rw [runTrace_cons, hrun]
    exact hstart2
  · rw [runTrace_cons, hrun, hfirst]
  · rw [runTrace_cons, hrun, stepObs,
      updateEyeState_unsafe_start _ _ _ _ _ hrb, hstart2]
    rfl
  · rw [runTrace_cons, hrun, stepObs,
      updateEyeState_unsafe_duration _ _ _ _ _ hrb, hstart2]
    rfl

/-- Witness for C4: eyes close at `t = 1000`; SAFE frames at
`t = 4000, 4100, 4200` (a 0.2 s gap, within the 500 ms debounce); UNSAFE
resumes at `t = 6000` and the duration is `(6000 - 1000)/1000 = 5` seconds,
accumulated from the original start. -/
theorem debounce_preserves_danger_start_witness :
    (runTrace (stepObs initialHealthState ⟨false, true, true, 1000⟩)
      (⟨true, true, true, 4000⟩ ::
        [⟨true, true, true, 4100⟩, ⟨true, true, false, 4200⟩])).eyesClosedStartTime
      = some 1000 ∧
    (runTrace (stepObs initialHealthState ⟨false, true, true, 1000⟩)
      (⟨true, true, true, 4000⟩ ::
        [⟨true, true, true, 4100⟩, ⟨true, true, false, 4200⟩])).eyesClosedDuration
      = (stepObs initialHealthState ⟨false, true, true, 1000⟩).eyesClosedDuration ∧
    (stepObs (runTrace (stepObs initialHealthState ⟨false, true, true, 1000⟩)
      (⟨true, true, true, 4000⟩ ::
        [⟨true, true, true, 4100⟩, ⟨true, true, false, 4200⟩]))
      ⟨false, true, true, 6000⟩).eyesClosedStartTime = some 1000 ∧
    (stepObs (runTrace (stepObs initialHealthState ⟨false, true, true, 1000⟩)
      (⟨true, true, true, 4000⟩ ::
        [⟨true, true, true, 4100⟩, ⟨true, true, false, 4200⟩]))
      ⟨false, true, true, 6000⟩).eyesClosedDuration
      = ((((6000 : ℤ) - 1000 : ℤ)) : ℚ) / 1000 :=
  debounce_preserves_danger_start
    (stepObs initialHealthState ⟨false, true, true, 1000⟩) 1000
    (by norm_num [stepObs, updateEyeState, initialHealthState])
    (by norm_num [stepObs, updateEyeState, initialHealthState])
    ⟨true, true, true, 4000⟩ (by decide) (by decide)
    [⟨true, true, true, 4100⟩, ⟨true, true, false, 4200⟩]
    (by decide) (by decide) ⟨false, true, true, 6000⟩ (by decide)


/-! ### C5: classifier failure semantics -/

/-- C5 (code_bug evidence): the `catch` handler of `detectEyes` in
`src/client/src/pages/HealthMonitor.tsx` calls `updateEyeState(false, false)`,
so a detection-pipeline exception is converted into an eyes-not-visible
observation.  Concretely: one exception tick from the clean initial store
state changes the state (the danger counter becomes 0.1 s and the displayed
eye state flips to closed), and an exception tick from the state reached
after 59 such ticks (5.9 s accumulated, alarm off) pushes the counter to
6.0 s and TRIGGERS the drowsiness alarm — a false alarm produced purely by
exceptions, where the claim (and the part_017 handler, whose exception path
is covered by `detect_valid_frame_throws_before_update`) requires the state
to be left completely unchanged. -/
theorem detection_error_starts_false_alarm :
    hmDetectionErrorStep initialHealthState5 ≠ initialHealthState5 ∧
    (hmDetectionErrorStep initialHealthState5).eyesClosedDuration = 1/10 ∧
    (hmDetectionErrorStep
      { cameraActive := true, eyesClosedDuration := 59/10,
        alertBeeping := false, beepOn := false, fdFaceDetected := false,
        fdEyesOpen := false }).alertBeeping = true := by
  refine ⟨?_, ?_, ?_⟩
  · intro hc
    have hd := congrArg HealthState5.eyesClosedDuration hc
    norm_num [hmDetectionErrorStep, updateEyeState5, initialHealthState5] at hd
  · norm_num [hmDetectionErrorStep, updateEyeState5, initialHealthState5]
  · norm_num [hmDetectionErrorStep, updateEyeState5]

/-! ### C6: telemetry clamping -/

/-- C6 (code_bug evidence): `SET_RPM` stores its value raw (no clamping in
`handleControl`), and `generateSensorData` enforces only lower bounds, so
after `START` and `SET_RPM 99999` the generated rpm reading is 99999 — far
above the documented maximum `SENSORS.rpm.max = 3000` — even with all noise
draws at their centre value 0.5. -/
theorem set_rpm_unclamped_overflows_documented_max :
    (handleControl (handleControl initialSystemState 1000 ControlCommand.start)
        1000 (ControlCommand.setRpm 99999)).rpmTarget = 99999 ∧
    (generateSensorData
        (handleControl (handleControl initialSystemState 1000 ControlCommand.start)
          1000 (ControlCommand.setRpm 99999)) 2000 halfDraws).1.rpm = 99999 ∧
    ¬ ((generateSensorData
        (handleControl (handleControl initialSystemState 1000 ControlCommand.start)
          1000 (ControlCommand.setRpm 99999)) 2000 halfDraws).1.rpm
        ≤ rpmDocMax) := by
  refine ⟨rfl, ?_, ?_⟩ <;>
    norm_num [generateSensorData, handleControl, initialSystemState,
      halfDraws, rpmDocMax]

/-! ### C7: the undeclared identifier in the part_017 detection handler -/

/-- C7: whenever the part_017 `detectEyes` handler reaches the
valid-landmarks branch (face detected, both eye landmark sets of length 6)
with at least one nonzero per-eye EAR, execution reaches the read of the
undeclared identifier `definitelyClosed` (line 267) and throws a
`ReferenceError` before `updateEyeState(finalEyesOpen, true, true)`
(line 277) can run; the surrounding `catch` swallows the error, so the store
state is returned unchanged and no eyes-visible observation is delivered. -/
theorem detect_valid_frame_throws_before_update (leftEye rightEye : List Pt)
    (sm : SmootherState) (hs : HealthState) (now : ℤ)
    (_hl : leftEye.length = 6) (_hr : rightEye.length = 6)
    (hne : ¬ (calculateEAR leftEye = 0 ∧ calculateEAR rightEye = 0)) :
    (detectEyesValid leftEye rightEye sm hs now).threw = true ∧
    (detectEyesValid leftEye rightEye sm hs now).hs = hs := by
  unfold detectEyesValid
  rw [if_neg hne]
  exact ⟨rfl, rfl⟩

/-- Witness for C7 on a concrete open-eye frame (per-eye EAR 2/3 ≠ 0). -/
theorem detect_valid_frame_throws_before_update_witness :
    (detectEyesValid sampleOpenEye sampleOpenEye initialSmootherState
      initialHealthState 1000).threw = true ∧
    (detectEyesValid sampleOpenEye sampleOpenEye initialSmootherState
      initialHealthState 1000).hs = initialHealthState :=
  detect_valid_frame_throws_before_update sampleOpenEye sampleOpenEye
    initialSmootherState initialHealthState 1000 rfl rfl
    (by norm_num [sampleOpenEye, calculateEAR])

/-! ### C8: EAR totality and the unsafe default -/

/-- C8 (amended): the part_017 `calculateEAR` is a total function returning 0
on every malformed input — wrong point count (≠ 6) or degenerate (zero)
horizontal distance — and when both eyes yield ratio 0 the detection handler
delivers the unsafe eyes-not-visible observation
`updateEyeState(false, false, true)`.  (The `calculateEAR` of
`src/client/src/pages/HealthMonitor.tsx` has no such guards; see the
counterexample `hm_calculateEAR_malformed_not_closed`.) -/
theorem calculateEAR_total_unsafe_default :
    (∀ eye : List Pt, eye.length ≠ 6 → calculateEAR eye = 0) ∧
    (∀ p0 p1 p2 p3 p4 p5 : Pt, |p0.x - p3.x| = 0 →
      calculateEAR [p0, p1, p2, p3, p4, p5] = 0) ∧
    (∀ (leftEye rightEye : List Pt) (sm : SmootherState) (hs : HealthState)
        (now : ℤ), calculateEAR leftEye = 0 → calculateEAR rightEye = 0 →
      detectEyesValid leftEye rightEye sm hs now
        = { hs := updateEyeState hs false false true now, sm := sm,
            threw := false }) := by
  refine ⟨?_, ?_, ?_⟩
  · intro eye h
    rcases eye with _ | ⟨a, _ | ⟨b, _ | ⟨c, _ | ⟨d, _ | ⟨e, _ | ⟨f, _ | ⟨g, tl⟩⟩⟩⟩⟩⟩⟩ <;>
      first
        | rfl
        | (exfalso; simp at h)
  · intro p0 p1 p2 p3 p4 p5 h
    simp [calculateEAR, h]
  · intro leftEye rightEye sm hs now h1 h2
    simp [detectEyesValid, h1, h2]

/-- Witness for C8 at concrete malformed inputs: the empty landmark list, a
6-point list with zero horizontal distance, and a frame whose two malformed
eyes produce the unsafe observation. -/
theorem calculateEAR_total_unsafe_default_witness :
    calculateEAR ([] : List Pt) = 0 ∧
    calculateEAR [⟨5, 0⟩, ⟨5, 2⟩, ⟨5, 2⟩, ⟨5, 0⟩, ⟨5, -2⟩, ⟨5, -2⟩] = 0 ∧
    detectEyesValid [] [] initialSmootherState initialHealthState 1000
      = { hs := updateEyeState initialHealthState false false true 1000,
          sm := initialSmootherState, threw := false } := by
  obtain ⟨h1, h2, h3⟩ := calculateEAR_total_unsafe_default
  exact ⟨h1 [] (by decide),
    h2 ⟨5, 0⟩ ⟨5, 2⟩ ⟨5, 2⟩ ⟨5, 0⟩ ⟨5, -2⟩ ⟨5, -2⟩ (by norm_num),
    h3 [] [] initialSmootherState initialHealthState 1000 rfl rfl⟩

/-- Counterexample to C8 as stated: the `HealthMonitor.tsx` variant of
`calculateEAR` (also cited by the claim) is not total and does not default to
closed: on an empty landmark list it throws (`eye[1].y` on `undefined`), and
on a 6-point list with zero horizontal distance but positive vertical
distance it returns `+Infinity`, which the classifier
`avgEAR > EYE_CLOSED_THRESHOLD` (0.25) classifies as OPEN. -/
theorem hm_calculateEAR_malformed_not_closed :
    hmCalculateEAR [] = Except.error () ∧
    hmCalculateEAR [⟨0, 0⟩, ⟨0, 3⟩, ⟨0, 0⟩, ⟨0, 0⟩, ⟨0, 0⟩, ⟨0, 1⟩]
      = Except.ok JsNum.posInf ∧
    jsGt JsNum.posInf (25/100) = true := by
  refine ⟨rfl, ?_, rfl⟩
  norm_num [hmCalculateEAR]


/-! ### C9: the smoother classification equation -/

/-- Boolean shape of part_017's final classification: taking into account
that the `smoothedEyesClosed` disjunct is absorbed by the stricter
`nearThresholdClosed` margin, the frame counts as open exactly when the raw
ratio is at least the threshold, the smoothed ratio clears the threshold by
the 0.03 safety margin, and the smoothed ratio clears the 0.26 hard clamp. -/
theorem finalEyesOpen_iff (th s e : ℚ) :
    (!(decide (e < th) || decide (s < th) || decide (s < th + 3/100) ||
       decide (s < 26/100))) = true ↔
      (th ≤ e ∧ th + 3/100 ≤ s ∧ 26/100 ≤ s) := by
  simp only [Bool.not_eq_true', Bool.or_eq_false_iff, decide_eq_false_iff_not,
    not_lt]
  constructor
  · rintro ⟨⟨⟨h1, h2⟩, h3⟩, h4⟩
    exact ⟨h1, h3, h4⟩
  · rintro ⟨h1, h3, h4⟩
    exact ⟨⟨⟨h1, by linarith⟩, h3⟩, h4⟩

/-- C9 (amended): for every valid ratio sample, the part_017 smoother keeps a
FIFO of at most 3 samples whose arithmetic mean is the smoothed ratio; the
threshold is the fixed 0.26 before calibration and `min(baseline * 0.8,
0.30)` once a baseline above 0.25 has been calibrated; but the eyes-open
output is NOT `smoothedRatio > threshold` alone: it additionally requires the
raw sample to be at least the threshold, the smoothed ratio to clear the
threshold by a 0.03 margin, and the smoothed ratio to clear the 0.26 hard
clamp. -/
theorem smoother_classification (sm : SmootherState) (e : ℚ)
    (hlen : sm.earHistory.length ≤ 3) :
    (smootherStep sm e).sm.earHistory.length ≤ 3 ∧
    (smootherStep sm e).smoothedEAR
      = listMean (smootherStep sm e).sm.earHistory ∧
    ((smootherStep sm e).sm.baselineEAR = none →
      (smootherStep sm e).threshold = 26/100) ∧
    (∀ b : ℚ, (smootherStep sm e).sm.baselineEAR = some b → 25/100 < b →
      (smootherStep sm e).threshold = min (b * (80/100)) (30/100)) ∧
    ((smootherStep sm e).finalEyesOpen = true ↔
      ((smootherStep sm e).threshold ≤ e ∧
       (smootherStep sm e).threshold + 3/100 ≤ (smootherStep sm e).smoothedEAR ∧
       26/100 ≤ (smootherStep sm e).smoothedEAR)) := by
  obtain ⟨hist, base, calib⟩ := sm
  dsimp only [smootherStep] at hlen ⊢
  refine ⟨?_, rfl, ?_, ?_, finalEyesOpen_iff _ _ _⟩
  · split_ifs <;> simp_all [List.length_append]
  · split_ifs <;> cases base <;> simp_all
  · intro b hb hgt
    split_ifs at hb ⊢ <;> cases base <;> simp_all

/-- Witness for C9 at a concrete sample (empty smoother state, raw ratio
0.3). -/
theorem smoother_classification_witness :
    (smootherStep initialSmootherState (3/10)).sm.earHistory.length ≤ 3 ∧
    (smootherStep initialSmootherState (3/10)).smoothedEAR
      = listMean (smootherStep initialSmootherState (3/10)).sm.earHistory ∧
    ((smootherStep initialSmootherState (3/10)).sm.baselineEAR = none →
      (smootherStep initialSmootherState (3/10)).threshold = 26/100) ∧
    (∀ b : ℚ, (smootherStep initialSmootherState (3/10)).sm.baselineEAR
        = some b → 25/100 < b →
      (smootherStep initialSmootherState (3/10)).threshold
        = min (b * (80/100)) (30/100)) ∧
    ((smootherStep initialSmootherState (3/10)).finalEyesOpen = true ↔
      ((smootherStep initialSmootherState (3/10)).threshold ≤ 3/10 ∧
       (smootherStep initialSmootherState (3/10)).threshold + 3/100
         ≤ (smootherStep initialSmootherState (3/10)).smoothedEAR ∧
       26/100 ≤ (smootherStep initialSmootherState (3/10)).smoothedEAR)) :=
  smoother_classification initialSmootherState (3/10) (by decide)

/-- Counterexample to C9 as stated: with a calibrated baseline of 0.30 the
threshold is `0.30 * 0.8 = 0.24`; a frame with raw and smoothed ratio 0.25
satisfies `smoothedRatio > threshold` (0.25 > 0.24), yet the near-threshold
margin (`smoothedEAR < threshold + 0.03`) forces the output CLOSED — a
condition other than `smoothedRatio > threshold` changes the
classification. -/
theorem smoother_near_threshold_overrides :
    (smootherStep ⟨[1/4, 1/4], some (3/10), 20⟩ (1/4)).threshold = 6/25 ∧
    (smootherStep ⟨[1/4, 1/4], some (3/10), 20⟩ (1/4)).smoothedEAR = 1/4 ∧
    (smootherStep ⟨[1/4, 1/4], some (3/10), 20⟩ (1/4)).threshold
      < (smootherStep ⟨[1/4, 1/4], some (3/10), 20⟩ (1/4)).smoothedEAR ∧
    (smootherStep ⟨[1/4, 1/4], some (3/10), 20⟩ (1/4)).finalEyesOpen
      = false := by
  norm_num [smootherStep, listMean, min_def]

end Simba
